import Mathlib

/-!
Shallow embedding of the content-risk scoring engine of the `team-spark`
repository (src/src/services/TextAnalysisService.ts, ToxicityAnalyzer.ts,
ProfanityFilter.ts, ImageAnalysisService.ts), together with proofs settling
the frozen claims about its specification.

Modelling conventions:
* JavaScript numbers are modelled as exact rationals; every arithmetic
  operation used by the sources (+, *, Math.min, Math.max, Math.round,
  thresholds) is exact on the values the code manipulates.
* `Math.sqrt` (used only inside `calculateConfidence`) is not exactly
  representable over the rationals, so it is passed in as an oracle
  function `sqrtFn`; no claim depends on its value.
* The optional external-classifier calls (Hugging Face hate-speech model,
  Perspective toxicity API) are modelled as `Option` oracles: `none`
  models a failed or timed-out call, which the sources catch and turn
  into the score 0 before merging.
* The `bad-words` library used by ProfanityFilter is external to the
  repository; its word list is a parameter `filterBase` and its
  `isProfane` per-word \b-boundary test is reproduced below.
* The source regular expressions are embedded as alternation lists of
  item sequences (`RItem`): every regex appearing in the sources is a
  finite alternation of sequences of literal chunks, \s+, \w+ and \d-dot-4
  items whose greedy quantifiers never require backtracking (each
  quantified class is disjoint from the character that follows it), so
  the deterministic greedy matcher below is faithful to the JS engine.
* RegExp objects created with the `g` flag keep a `lastIndex` cursor
  which `.test` reads and writes.  The only such objects that survive
  between calls are the `toxicityPatterns` class fields of
  `ToxicityAnalyzer`; their cursors are threaded explicitly as a
  `List Nat` state.  All other regexes are recreated on every call.
* Report metadata (id, timestamps, processingTime) is omitted: the
  claims explicitly exclude it.
-/

/- The Batteries rational-number operations are irreducible by default,
which blocks `decide` on concrete score values; restore the default
reducibility for this file. -/
attribute [local semireducible] Rat.add Rat.sub Rat.mul Rat.inv Rat.ofScientific

/-- JS character class \w = [A-Za-z0-9_]. -/
def isWordChar (c : Char) : Bool :=
  (('a' ≤ c && c ≤ 'z') || ('A' ≤ c && c ≤ 'Z') || ('0' ≤ c && c ≤ '9') || c = '_')

/-- JS character class \s, restricted to the ASCII whitespace the inputs use. -/
def isSpaceChar (c : Char) : Bool :=
  (c = ' ' || c = '\t' || c = '\n' || c = '\r')

/-- JS character class \d. -/
def isDigitChar (c : Char) : Bool :=
  ('0' ≤ c && c ≤ '9')

/-- If `needle` is an initial segment of `hay`, return the rest of `hay`. -/
def dropStart : List Char → List Char → Option (List Char)
  | [], cs => some cs
  | _ :: _, [] => none
  | a :: as, c :: cs => if a = c then dropStart as cs else none

/-- One item of an embedded regular expression. -/
inductive RItem where
  | lit (s : String)
  | ws
  | wchars
  | digits (n : Nat)
deriving Repr, DecidableEq

/-- Greedy match of one item at the head of `cs`; returns the remainder. -/
def itemMatch : RItem → List Char → Option (List Char)
  | .lit w, cs => dropStart w.data cs
  | .ws, cs =>
      let r := cs.dropWhile (fun c => isSpaceChar c)
      if r.length < cs.length then some r else none
  | .wchars, cs =>
      let r := cs.dropWhile (fun c => isWordChar c)
      if r.length < cs.length then some r else none
  | .digits n, cs =>
      if (cs.take n).length = n && (cs.take n).all (fun c => isDigitChar c)
      then some (cs.drop n) else none

/-- Match a sequence of items at the head of `cs`; returns the remainder. -/
def seqMatch : List RItem → List Char → Option (List Char)
  | [], cs => some cs
  | it :: its, cs => (itemMatch it cs).bind (seqMatch its)

/-- One embedded regex: an alternation of item sequences, listed in the
backtracking preference order of the JS engine. -/
def Regex := List (List RItem)

/-- Search for the leftmost match at or after position `pos`
(the JS engine scans starting positions left to right and tries
alternatives in preference order); returns `(start, end)` indices. -/
def searchFrom (alts : Regex) : List Char → Nat → Option (Nat × Nat)
  | [], pos =>
      (alts.findSome? fun p => (seqMatch p []).map fun rem =>
        (pos, pos + (0 - rem.length)))
  | c :: cs, pos =>
      match alts.findSome? (fun p => (seqMatch p (c :: cs)).map fun rem =>
        (pos, pos + ((c :: cs).length - rem.length))) with
      | some r => some r
      | none => searchFrom alts cs (pos + 1)

/-- `regex.test(text)` for a regex without persistent state. -/
def reTest (alts : Regex) (s : String) : Bool :=
  (searchFrom alts s.data 0).isSome

/-- `regex.test(text)` for a `g`-flagged RegExp object: the search starts
at `lastIndex`; on success the cursor moves to the match end, on failure
it resets to 0.  Returns the test result and the new `lastIndex`. -/
def gTest (alts : Regex) (s : String) (lastIndex : Nat) : Bool × Nat :=
  match searchFrom alts (s.data.drop lastIndex) 0 with
  | some (_, e) => (true, lastIndex + e)
  | none => (false, 0)

/-- `haystack.includes(needle)` (plain substring containment). -/
def strContains : List Char → List Char → Bool
  | _, [] => true
  | [], _ :: _ =>
      false
  | c :: cs, needle =>
      (dropStart needle (c :: cs)).isSome || strContains cs needle

/-- `text.includes(word)` on strings. -/
def includesStr (text word : String) : Bool :=
  strContains text.data word.data

/-- Number of occurrences of character `ch` (`(text.match(/ch/g)||[]).length`). -/
def charCount (s : String) (ch : Char) : Nat :=
  s.data.countP (fun c => c = ch)

/-- `new RegExp("\\b" + w + "\\b")` match at the head of `cs` given the
character just before it (`none` at the start of the string); the library
words consist of word characters, so \b holds iff the neighbours are
absent or non-word. -/
def bMatchAt (w : List Char) (prev : Option Char) (cs : List Char) : Bool :=
  match dropStart w cs with
  | none => false
  | some rem =>
      (match prev with
       | none => true
       | some p => !isWordChar p) &&
      (match rem with
       | [] => true
       | r :: _ => !isWordChar r)

/-- Whether `\b w \b` matches anywhere in the text. -/
def bSearch (w : List Char) : Option Char → List Char → Bool
  | prev, [] => bMatchAt w prev []
  | prev, c :: cs => bMatchAt w prev (c :: cs) || bSearch w (some c) cs

/-- `\b w \b` test over strings. -/
def bTest (w s : String) : Bool :=
  bSearch w.data none s.data

/-- Count of the non-overlapping `\b w \b` matches found by a `g`-flagged
`text.match`, via fuel bounded by the text length. -/
def bCountAux (w : List Char) : Nat → Option Char → List Char → Nat
  | 0, _, _ => 0
  | fuel + 1, prev, cs =>
      if bMatchAt w prev cs then
        1 + bCountAux w fuel w.getLast? (cs.drop w.length)
      else
        match cs with
        | [] => 0
        | c :: cs' => bCountAux w fuel (some c) cs'

def bCount (w s : String) : Nat :=
  bCountAux w.data (s.data.length + 1) none s.data

/-- Build the phrase `w1\s+w2\s+...\s+wn` out of literal chunks. -/
def phrase (ws : List String) : List RItem :=
  (ws.map RItem.lit).intersperse RItem.ws

/-- A one-alternative regex made of a single phrase. -/
def rx (ws : List String) : Regex := [phrase ws]

/-- An apostrophe, as it occurs inside some source patterns. -/
def apoS : String := String.mk [Char.ofNat 39]

/-- JS `Math.round`: round half toward positive infinity. -/
def jsRound (q : ℚ) : ℤ := ⌊q + 1/2⌋

/-- Lowercase each character (`text.toLowerCase()`). -/
def toLowerStr (s : String) : String := String.mk (s.data.map Char.toLower)

/-- `text.trim()`: strip leading and trailing whitespace. -/
def trimChars (cs : List Char) : List Char :=
  ((cs.dropWhile (fun c => isSpaceChar c)).reverse.dropWhile
    (fun c => isSpaceChar c)).reverse

def trimStr (s : String) : String := String.mk (trimChars s.data)

/-- `.replace(/\s+/g, ' ')`: collapse every whitespace run to one space.
The flag records whether the previous character was whitespace. -/
def collapseWsAux : Bool → List Char → List Char
  | _, [] => []
  | prevWs, c :: cs =>
      if isSpaceChar c then
        if prevWs then collapseWsAux true cs
        else ' ' :: collapseWsAux true cs
      else c :: collapseWsAux false cs

/-- `.replace(/[^\w\s]/g, ' ')`: every character that is neither a word
character nor whitespace becomes a space. -/
def stripSpecial (cs : List Char) : List Char :=
  cs.map (fun c => if isWordChar c || isSpaceChar c then c else ' ')

/-- TextAnalysisService.preprocessText: lowercase, trim, collapse
whitespace, remove special characters, trim. -/
def preprocessText (text : String) : String :=
  String.mk (trimChars (stripSpecial (collapseWsAux false
    (trimChars (toLowerStr text).data))))

/-- `text.split(/\s+/)` with JS semantics: separators are maximal
whitespace runs; a leading or trailing run contributes an empty token.
The flag records whether the previous character was whitespace. -/
def splitWsAux : List Char → Bool → List Char → List String
  | acc, _, [] => [String.mk acc.reverse]
  | acc, prevWs, c :: cs =>
      if isSpaceChar c then
        if prevWs then splitWsAux acc true cs
        else String.mk acc.reverse :: splitWsAux [] true cs
      else splitWsAux (c :: acc) false cs

def splitWs (s : String) : List String := splitWsAux [] false s.data

/-- `[...new Set(xs)]`: deduplicate keeping first occurrences in order. -/
def jsDedup (l : List String) : List String :=
  l.foldl (fun acc w => if w ∈ acc then acc else acc ++ [w]) []


/-! ## Context and intent classifiers (TextAnalysisService.ts, classes
`ContextAnalyzer` and `IntentAnalyzer`) -/

structure ContextSignals where
  isSarcastic : Bool
  isIronic : Bool
  isPlayful : Bool
  isFriendly : Bool
  isEducational : Bool
  isHistorical : Bool
  isFormal : Bool
deriving Repr, DecidableEq

structure IntentSignals where
  isThreatening : Bool
  isAggressive : Bool
  isHostile : Bool
  isClear : Bool
  isConstructive : Bool
deriving Repr, DecidableEq

/-- Alternation regex `pre (a1|a2|...) post` where each `ai` may span words. -/
def rxAlt (pre : List String) (alts : List (List String)) (post : List String) :
    Regex :=
  alts.map (fun a => phrase (pre ++ a ++ post))

/-- `indicators.some(pattern => pattern.test(text))`. -/
def anyTest (rs : List Regex) (t : String) : Bool :=
  rs.any (fun r => reTest r t)

/-- ContextAnalyzer.detectSarcasm indicator list. -/
def sarcasmIndicators : List Regex :=
  [rx ["yeah", "right"], rx ["sure", "thing"], rx ["oh", "great"],
   rx ["wonderful"], rx ["fantastic"], rx ["as", "if"], rx ["whatever"]]

/-- ContextAnalyzer.detectIrony indicator list. -/
def ironyIndicators : List Regex :=
  [rx ["ironically"], rx ["paradoxically"], rx ["surprisingly"],
   rx ["unexpectedly"]]

/-- ContextAnalyzer.detectPlayfulness indicator list (the last entry is the
emoji alternation regex). -/
def playfulIndicators : List Regex :=
  [rx ["lol"], rx ["haha"], rx ["hehe"], rx ["jk"], rx ["just", "kidding"],
   [[RItem.lit "😄"], [RItem.lit "😊"], [RItem.lit "😂"], [RItem.lit "🤣"]]]

/-- ContextAnalyzer.detectFriendliness indicator list. -/
def friendlyIndicators : List Regex :=
  [rx ["please"], rx ["thank", "you"], rx ["thanks"], rx ["appreciate"],
   rx ["kind", "of"], rx ["sort", "of"]]

/-- ContextAnalyzer.detectEducational indicator list. -/
def educationalIndicators : List Regex :=
  [rx ["according", "to"], rx ["research", "shows"],
   rx ["studies", "indicate"], rx ["historically"], rx ["in", "fact"],
   rx ["for", "example"]]

/-- ContextAnalyzer.detectHistorical indicator list; the first entry embeds
the source regex of the shape in-whitespace-four-digits. -/
def historicalIndicators : List Regex :=
  [[[RItem.lit "in", RItem.ws, RItem.digits 4]], rx ["during", "the"],
   rx ["historically"], rx ["in", "the", "past"], rx ["century"], rx ["era"]]

/-- ContextAnalyzer.detectFormality indicator list. -/
def formalIndicators : List Regex :=
  [rx ["therefore"], rx ["however"], rx ["furthermore"], rx ["moreover"],
   rx ["consequently"]]

/-- ContextAnalyzer.analyze. -/
def contextAnalyze (t : String) : ContextSignals where
  isSarcastic := anyTest sarcasmIndicators t
  isIronic := anyTest ironyIndicators t
  isPlayful := anyTest playfulIndicators t
  isFriendly := anyTest friendlyIndicators t
  isEducational := anyTest educationalIndicators t
  isHistorical := anyTest historicalIndicators t
  isFormal := anyTest formalIndicators t

/-- IntentAnalyzer.detectThreats indicator list. -/
def threatIndicators : List Regex :=
  [rxAlt ["i", "will"] [["hurt"], ["harm"], ["kill"], ["attack"]] [],
   rxAlt ["you", "will"] [["pay"], ["suffer"], ["regret"]] [],
   rx ["threat"], rx ["warning"]]

/-- IntentAnalyzer.detectAggression indicator list. -/
def aggressionIndicators : List Regex :=
  [rx ["angry"], rx ["furious"], rx ["rage"], rx ["attack"], rx ["fight"],
   rx ["destroy"]]

/-- IntentAnalyzer.detectHostility indicator list. -/
def hostilityIndicators : List Regex :=
  [rx ["hate"], rx ["despise"], rx ["loathe"], rx ["enemy"], rx ["opponent"]]

/-- The test of the source regex `[.!?]` used by detectClarity. -/
def hasTerminalPunct (t : String) : Bool :=
  t.data.any (fun c => c = '.' || c = '!' || c = '?')

/-- IntentAnalyzer.detectClarity: word count above 5 and the text contains
one of the three terminal punctuation characters. -/
def detectClarity (t : String) : Bool :=
  decide ((splitWs t).length > 5) && hasTerminalPunct t

/-- IntentAnalyzer.detectConstructiveness indicator list. -/
def constructiveIndicators : List Regex :=
  [rx ["suggest"], rx ["recommend"], rx ["propose"], rx ["help"],
   rx ["improve"], rx ["better"]]

/-- IntentAnalyzer.analyze. -/
def intentAnalyze (t : String) : IntentSignals where
  isThreatening := anyTest threatIndicators t
  isAggressive := anyTest aggressionIndicators t
  isHostile := anyTest hostilityIndicators t
  isClear := detectClarity t
  isConstructive := anyTest constructiveIndicators t

/-! ## Category result shape and risk levels -/

inductive RiskLevel where
  | low | medium | high | critical
deriving Repr, DecidableEq

def RiskLevel.toNat : RiskLevel → Nat
  | .low => 0
  | .medium => 1
  | .high => 2
  | .critical => 3

/-- TextAnalysisService.getRiskLevel (lines 501-506). -/
def getRiskLevel (score : ℚ) : RiskLevel :=
  if 80 ≤ score then .critical
  else if 60 ≤ score then .high
  else if 40 ≤ score then .medium
  else .low

/-- ToxicityAnalyzer.getToxicityLevel (lines 205-210), textually identical
to TextAnalysisService.getRiskLevel. -/
def getToxicityLevel (score : ℚ) : RiskLevel :=
  if 80 ≤ score then .critical
  else if 60 ≤ score then .high
  else if 40 ≤ score then .medium
  else .low

/-- The per-category result record produced by each detector. -/
structure CategoryResult where
  score : ℚ
  level : RiskLevel
  detected : Bool
  reasoning : List String
deriving Repr, DecidableEq

/-! ## Hate speech detector (TextAnalysisService.analyzeHateSpeech,
lines 114-214) -/

/-- Variants of the source group `(blacks?|whites?|jews?|muslims?|gays?|women?|men)`,
in the preference order of the JS engine (greedy optional letters first). -/
def grpVariants : List String :=
  ["blacks", "black", "whites", "white", "jews", "jew", "muslims", "muslim",
   "gays", "gay", "women", "wome", "men"]

/-- The `directHate` tier: three regexes, worth 40 points each. -/
def directHatePatterns : List Regex :=
  [grpVariants.map (fun g => phrase ["i", "hate", "all", g]) ++
     grpVariants.map (fun g => phrase ["i", "hate", g]),
   grpVariants.flatMap (fun g =>
     [phrase [g, "should", "die"], phrase [g, "should", "be", "killed"],
      phrase [g, "should", "be", "eliminated"]]),
   ["nazi", "fascist", "supremacist"].flatMap (fun a =>
     ["ideology", "beliefs", "belief", "views", "view"].map
       (fun b => phrase [a, b]))]

/-- The `indirectHate` tier: three regexes, worth 25 points each. -/
def indirectHatePatterns : List Regex :=
  [grpVariants.flatMap (fun g =>
     ["inferior", "superior", "animals", "animal", "scum"].map
       (fun a => phrase [g, "are", a])),
   grpVariants.map (fun g => phrase [g, "don" ++ apoS ++ "t", "belong"]),
   grpVariants.flatMap (fun g =>
     ["ruining", "destroying"].map (fun a => phrase [g, "are", a]))]

/-- The `dehumanizing` tier: two regexes, worth 35 points each. -/
def dehumanizingPatterns : List Regex :=
  [grpVariants.flatMap (fun g =>
     ["animals", "animal", "vermin", "pests", "pest"].map
       (fun a => phrase [g, "are", a])),
   grpVariants.flatMap (fun g =>
     ["exterminated", "eliminated"].map
       (fun a => phrase [g, "should", "be", a]))]

/-- Number of matching regexes of the `directHate` tier. -/
def hateNDirect (t : String) : Nat :=
  directHatePatterns.countP (fun r => reTest r t)

/-- Number of matching regexes of the `indirectHate` tier. -/
def hateNIndirect (t : String) : Nat :=
  indirectHatePatterns.countP (fun r => reTest r t)

/-- Number of matching regexes of the `dehumanizing` tier. -/
def hateNDehuman (t : String) : Nat :=
  dehumanizingPatterns.countP (fun r => reTest r t)

/-- The accumulated tier score of analyzeHateSpeech after the three tier
loops (40, 25 and 35 points per matching regex). -/
def hateTierScore (t : String) : ℚ :=
  40 * (hateNDirect t : ℚ) + 25 * (hateNIndirect t : ℚ) +
    35 * (hateNDehuman t : ℚ)

/-- The value of the `score` variable of analyzeHateSpeech after the
context-aware adjustments (lines 178-192): sarcasm/irony times 0.3,
educational/historical times 0.2, threatening intent times 1.5, applied
sequentially to the tier score. -/
def hateDamped (t : String) (c : ContextSignals) (i : IntentSignals) : ℚ :=
  let score1 := if c.isSarcastic || c.isIronic then hateTierScore t * 0.3
                else hateTierScore t
  let score2 := if c.isEducational || c.isHistorical then score1 * 0.2
                else score1
  if i.isThreatening then score2 * 1.5 else score2

/-- TextAnalysisService.analyzeHateSpeech (lines 114-214).  The three tier
loops add fixed points and push one reasoning string per matching regex;
then, in source order: context dampening, intent amplification, the
optional external-classifier merge (adopt the classifier score when it is
strictly greater, set `detected` when it exceeds 30), and the upper clamp.
`ml = none` models a failed external call (the source catch path leaves
the score unchanged, which coincides with a returned score of 0). -/
def analyzeHateSpeech (t : String) (c : ContextSignals) (i : IntentSignals)
    (ml : Option ℚ) : CategoryResult :=
  let detected0 : Bool := decide (0 < hateNDirect t) ||
    decide (0 < hateNIndirect t) || decide (0 < hateNDehuman t)
  let score3 := hateDamped t c i
  let mlScore : ℚ := ml.getD 0
  let score4 := if score3 < mlScore then mlScore else score3
  let detected1 := detected0 || decide ((30 : ℚ) < mlScore)
  let score5 := min score4 100
  { score := score5
    level := getRiskLevel score5
    detected := detected1
    reasoning :=
      List.replicate (hateNDirect t) "Direct hate speech pattern detected" ++
      List.replicate (hateNIndirect t) "Indirect hate speech pattern detected" ++
      List.replicate (hateNDehuman t) "Dehumanizing language detected" ++
      (if c.isSarcastic || c.isIronic then
        ["Score reduced due to sarcastic/ironic context"] else []) ++
      (if c.isEducational || c.isHistorical then
        ["Score reduced due to educational context"] else []) ++
      (if i.isThreatening then
        ["Score increased due to threatening intent"] else []) ++
      (if score3 < mlScore then
        ["ML model detected higher hate speech score"] else []) }

/-- The rule-based-only hate speech path: the body of analyzeHateSpeech
with the external-classifier block removed, which is what executes when
the classifier call throws and control jumps to the catch handler. -/
def hateSpeechRuleBased (t : String) (c : ContextSignals) (i : IntentSignals) :
    CategoryResult :=
  let detected0 : Bool := decide (0 < hateNDirect t) ||
    decide (0 < hateNIndirect t) || decide (0 < hateNDehuman t)
  let score3 := hateDamped t c i
  let score5 := min score3 100
  { score := score5
    level := getRiskLevel score5
    detected := detected0
    reasoning :=
      List.replicate (hateNDirect t) "Direct hate speech pattern detected" ++
      List.replicate (hateNIndirect t) "Indirect hate speech pattern detected" ++
      List.replicate (hateNDehuman t) "Dehumanizing language detected" ++
      (if c.isSarcastic || c.isIronic then
        ["Score reduced due to sarcastic/ironic context"] else []) ++
      (if c.isEducational || c.isHistorical then
        ["Score reduced due to educational context"] else []) ++
      (if i.isThreatening then
        ["Score increased due to threatening intent"] else []) }

/-! ## Harassment detector (TextAnalysisService.analyzeHarassment,
lines 253-356) -/

/-- The `directThreats` tier: three regexes, worth 45 points each. -/
def directThreatPatterns : List Regex :=
  [rxAlt ["i", "will"] [["hurt"], ["harm"], ["kill"], ["attack"], ["destroy"]]
     ["you"],
   rxAlt ["you", "will"] [["pay"], ["suffer"], ["regret"]] [],
   rxAlt ["i", "am", "going", "to"] [["hurt"], ["harm"], ["kill"], ["attack"]]
     ["you"]]

/-- The `stalking` tier: four regexes, worth 35 points each. -/
def stalkingPatterns : List Regex :=
  [rxAlt ["i", "know", "where", "you"] [["live"], ["work"], ["go"]] [],
   rx ["i", "am", "watching", "you"],
   rxAlt ["i", "see", "you"] [["everywhere"], ["all", "the", "time"]] [],
   rx ["i", "follow", "you"]]

/-- The `intimidation` tier: four regexes, worth 25 points each. -/
def intimidationPatterns : List Regex :=
  [rxAlt ["watch", "your"] [["back"], ["step"]] [],
   rxAlt ["you", "better"] [["watch", "out"], ["be", "careful"]] [],
   rx ["i", "will", "find", "you"],
   rx ["you", "can" ++ apoS ++ "t", "hide"]]

/-- The `cyberbullying` tier: four regexes, worth 30 points each. -/
def cyberbullyingPatterns : List Regex :=
  [rx ["everyone", "hates", "you"],
   rxAlt ["nobody"] [["likes"], ["loves"]] ["you"],
   rxAlt ["you", "should"] [["kill", "yourself"], ["die"]] [],
   rxAlt ["you", "are"] [["worthless"], ["useless"], ["pathetic"]] []]

/-- TextAnalysisService.analyzeHarassment: tier accumulation, sarcasm
dampening, threat amplification, clamp.  No external classifier exists
for this category. -/
def analyzeHarassment (t : String) (c : ContextSignals) (i : IntentSignals) :
    CategoryResult :=
  let nT := directThreatPatterns.countP (fun r => reTest r t)
  let nS := stalkingPatterns.countP (fun r => reTest r t)
  let nIm := intimidationPatterns.countP (fun r => reTest r t)
  let nC := cyberbullyingPatterns.countP (fun r => reTest r t)
  let score0 : ℚ := 45 * nT + 35 * nS + 25 * nIm + 30 * nC
  let detected : Bool :=
    decide (0 < nT) || decide (0 < nS) || decide (0 < nIm) || decide (0 < nC)
  let score1 := if c.isSarcastic || c.isIronic then score0 * 0.2 else score0
  let score2 := if i.isThreatening then score1 * 1.4 else score1
  let score3 := min score2 100
  { score := score3
    level := getRiskLevel score3
    detected := detected
    reasoning :=
      List.replicate nT "Direct threat pattern detected" ++
      List.replicate nS "Stalking behavior pattern detected" ++
      List.replicate nIm "Intimidation pattern detected" ++
      List.replicate nC "Cyberbullying pattern detected" ++
      (if c.isSarcastic || c.isIronic then
        ["Harassment score reduced due to sarcastic context"] else []) ++
      (if i.isThreatening then
        ["Harassment score increased due to threatening intent"] else []) }

/-! ## Toxicity analyzer (ToxicityAnalyzer.ts) -/

/-- ToxicityAnalyzer.toxicityKeywords (the source list repeats
"disgusting", and the forEach therefore counts it twice). -/
def toxicityKeywords : List String :=
  ["toxic", "poison", "venom", "hate", "disgusting", "revolting",
   "pathetic", "worthless", "useless", "garbage", "trash",
   "annoying", "irritating", "infuriating", "disgusting"]

/-- ToxicityAnalyzer.toxicityPatterns: eight `g`-flagged RegExp class
fields, in source order; these are the only regexes whose `lastIndex`
survives between calls. -/
def toxicityPatterns : List Regex :=
  [(["stupid", "dumb", "idiot", "moron"].map
      (fun a => phrase ["you", "are", "so", a])) ++
     (["stupid", "dumb", "idiot", "moron"].map
      (fun a => phrase ["you", "are", a])),
   rx ["i", "hate", "you"],
   rx ["you", "suck"],
   rx ["go", "away"],
   rx ["shut", "up"],
   rx ["nobody", "cares"],
   rx ["you", "are", "worthless"],
   rx ["you", "are", "garbage"]]

/-- The `lastIndex` cursors of the eight toxicityPatterns of a freshly
constructed ToxicityAnalyzer. -/
def initToxState : List Nat := toxicityPatterns.map (fun _ => 0)

/-- ToxicityAnalyzer.analyzeKeywords: 10 points per contained keyword,
capped at 40. -/
def toxAnalyzeKeywords (t : String) : ℚ :=
  min (10 * (toxicityKeywords.countP (fun k => includesStr t k) : ℚ)) 40

/-- One iteration of the ToxicityAnalyzer.analyzePatterns forEach: run
the stateful test of one pattern and accumulate 15 points on success. -/
def toxPatternsStep (t : String) (acc : ℚ × List Nat) (pli : Regex × Nat) :
    ℚ × List Nat :=
  let res := gTest pli.1 t pli.2
  ((if res.1 then acc.1 + 15 else acc.1), acc.2 ++ [res.2])

/-- ToxicityAnalyzer.analyzePatterns: 15 points per pattern whose
stateful `.test` succeeds, capped at 30; every cursor is updated. -/
def toxAnalyzePatterns (t : String) (st : List Nat) : ℚ × List Nat :=
  let r := (toxicityPatterns.zip st).foldl (toxPatternsStep t)
    ((0 : ℚ), ([] : List Nat))
  (min r.1 30, r.2)

/-- ToxicityAnalyzer.analyzeSentiment: negative words (5 points each),
negative patterns (10 points each), punctuation bonuses, capped at 20. -/
def toxAnalyzeSentiment (t : String) : ℚ :=
  let negWords : List String :=
    ["hate", "dislike", "terrible", "awful", "horrible", "disgusting",
     "annoying", "irritating", "frustrating", "angry", "mad", "upset"]
  let negPatterns : List Regex :=
    [rx ["i", "hate"], rx ["i", "dislike"], rx ["this", "is", "terrible"],
     rx ["this", "is", "awful"], rx ["i", "can" ++ apoS ++ "t", "stand"]]
  let s : ℚ := 5 * (negWords.countP (fun w => includesStr t w) : ℚ) +
    10 * (negPatterns.countP (fun r => reTest r t) : ℚ) +
    (if 3 < charCount t '!' then 5 else 0) +
    (if 3 < charCount t '?' then 3 else 0)
  min s 20

/-- ToxicityAnalyzer.analyzeAggression: aggressive words (15 points each),
aggressive patterns (20 points each), capped at 30. -/
def toxAnalyzeAggression (t : String) : ℚ :=
  let aggWords : List String :=
    ["attack", "fight", "destroy", "kill", "hurt", "harm",
     "violence", "aggressive", "hostile", "combative"]
  let aggPatterns : List Regex :=
    [rxAlt ["i", "will"] [["hurt"], ["harm"], ["attack"]] [],
     rxAlt ["you", "deserve", "to"] [["die"], ["suffer"]] [],
     rxAlt ["i", "want", "to"] [["hurt"], ["harm"]] [],
     rx ["let" ++ apoS ++ "s", "fight"]]
  min (15 * (aggWords.countP (fun w => includesStr t w) : ℚ) +
       20 * (aggPatterns.countP (fun r => reTest r t) : ℚ)) 30

/-- ToxicityAnalyzer.analyze (lines 26-57): keywords, stateful patterns,
max-merge with the external score, sentiment and aggression accumulation,
clamp.  `ml = none` models a failed Perspective call, which the source
catch turns into the score 0. -/
def toxicityAnalyzerAnalyze (t : String) (ml : Option ℚ) (st : List Nat) :
    ℚ × List Nat :=
  let clean := trimStr (toLowerStr t)
  let kw := toxAnalyzeKeywords clean
  let pr := toxAnalyzePatterns clean st
  let mlScore : ℚ := ml.getD 0
  let s1 := max (kw + pr.1) mlScore
  let s2 := s1 + toxAnalyzeSentiment clean + toxAnalyzeAggression clean
  (min s2 100, pr.2)

/-- The rule-based-only toxicity path: ToxicityAnalyzer.analyze with the
external-classifier call removed (what effectively runs when it fails). -/
def toxicityRuleBased (t : String) (st : List Nat) : ℚ × List Nat :=
  let clean := trimStr (toLowerStr t)
  let kw := toxAnalyzeKeywords clean
  let pr := toxAnalyzePatterns clean st
  let s2 := kw + pr.1 + toxAnalyzeSentiment clean + toxAnalyzeAggression clean
  (min s2 100, pr.2)

/-- TextAnalysisService.analyzeToxicity (lines 216-251): wraps the
ToxicityAnalyzer score with context dampening, playful dampening and
intent amplification; `detected` and `level` use the unclamped value. -/
def analyzeToxicity (t : String) (c : ContextSignals) (i : IntentSignals)
    (ml : Option ℚ) (st : List Nat) : CategoryResult × List Nat :=
  let base := toxicityAnalyzerAnalyze t ml st
  let s1 := if c.isSarcastic || c.isIronic then base.1 * 0.4 else base.1
  let s2 := if c.isPlayful || c.isFriendly then s1 * 0.3 else s1
  let s3 := if i.isAggressive || i.isHostile then s2 * 1.3 else s2
  ({ score := min s3 100
     level := getRiskLevel s3
     detected := decide ((40 : ℚ) < s3)
     reasoning :=
       (if c.isSarcastic || c.isIronic then
         ["Toxicity score reduced due to sarcastic context"] else []) ++
       (if c.isPlayful || c.isFriendly then
         ["Toxicity score reduced due to playful context"] else []) ++
       (if i.isAggressive || i.isHostile then
         ["Toxicity score increased due to aggressive intent"] else []) },
   base.2)

/-! ## Profanity filter (ProfanityFilter.ts; the `bad-words` library word
list is external to the repository and is carried as `baseList`) -/

/-- The `bad-words` Filter object; its word list after construction is
the library default list followed by the five custom words added by
ProfanityFilter.initializeCustomFilter. -/
structure BadWordsFilter where
  baseList : List String
deriving Repr, DecidableEq

def customProfanityList : List String :=
  ["stupid", "idiot", "moron", "dumb", "retard"]

def filterList (f : BadWordsFilter) : List String :=
  f.baseList ++ customProfanityList

/-- bad-words `Filter.isProfane`: some list word matches the text under a
word-boundary regex (our texts and the list words are lowercase, so the
case-insensitive flag is immaterial). -/
def filterIsProfane (f : BadWordsFilter) (t : String) : Bool :=
  (filterList f).any (fun w => bTest w t)

/-- ProfanityFilter.countRepeatedProfanity: for every list word, the
number of `g`-flagged boundary matches beyond the first. -/
def countRepeatedProfanity (f : BadWordsFilter) (t : String) : Nat :=
  (filterList f).foldl
    (fun acc w => let c := bCount w t; if 1 < c then acc + (c - 1) else acc) 0

/-- ProfanityFilter.calculateIntensityScore intensity table, in source
order. -/
def intensityMap : List (String × ℚ) :=
  [("damn", 5), ("hell", 5), ("crap", 5),
   ("stupid", 10), ("idiot", 10), ("moron", 10),
   ("fuck", 20), ("shit", 15), ("bitch", 15),
   ("cunt", 25), ("nigger", 30), ("faggot", 25)]

/-- ProfanityFilter.calculateIntensityScore. -/
def calculateIntensityScore (t : String) : ℚ :=
  min (intensityMap.foldl
    (fun acc p => if includesStr t p.1 then acc + p.2 else acc) 0) 30

/-- ProfanityFilter directedPatterns, in source order. -/
def directedPatterns : List Regex :=
  [[[RItem.lit "you", RItem.ws, RItem.wchars]],
   rx ["fuck", "you"],
   rx ["go", "to", "hell"],
   [[RItem.lit "you", RItem.ws, RItem.lit "are", RItem.ws, RItem.wchars]]]

/-- `text.toUpperCase()`. -/
def toUpperStr (s : String) : String := String.mk (s.data.map Char.toUpper)

/-- ProfanityFilter.calculateContextScore: directed profanity (10 points
per matching pattern), the all-caps bonus, and the repeated-exclamation
bonus (the source regex asks for a word-character run followed by at
least two exclamation marks), capped at 20. -/
def calculateContextScore (f : BadWordsFilter) (t : String) : ℚ :=
  let b1 : ℚ := 10 * (directedPatterns.countP (fun r => reTest r t) : ℚ)
  let b2 := b1 + (if t = toUpperStr t && filterIsProfane f t then 5 else 0)
  let b3 := b2 +
    (if reTest [[RItem.wchars, RItem.lit "!!"]] t && filterIsProfane f t
     then 5 else 0)
  min b3 20

/-- ProfanityFilter.analyze: 0 when the filter finds no profanity,
otherwise the base 30 plus contained-word, repetition, intensity and
context components, clamped above at 100. -/
def profanityFilterAnalyze (f : BadWordsFilter) (t : String) : ℚ :=
  let clean := trimStr (toLowerStr t)
  if filterIsProfane f clean then
    min (30 + 10 * ((filterList f).countP
           (fun w => includesStr clean (toLowerStr w)) : ℚ) +
         5 * (countRepeatedProfanity f clean : ℚ) +
         calculateIntensityScore clean +
         calculateContextScore f clean) 100
  else 0

/-- TextAnalysisService.analyzeProfanity (lines 358-392): context
dampening on the filter score; `detected` and `level` use the unclamped
value. -/
def analyzeProfanity (f : BadWordsFilter) (t : String) (c : ContextSignals) :
    CategoryResult :=
  let base := profanityFilterAnalyze f t
  let s1 := if c.isSarcastic || c.isIronic then base * 0.3 else base
  let s2 := if c.isPlayful || c.isFriendly then s1 * 0.4 else s1
  let s3 := if c.isEducational || c.isHistorical then s2 * 0.1 else s2
  { score := min s3 100
    level := getRiskLevel s3
    detected := decide ((25 : ℚ) < s3)
    reasoning :=
      (if c.isSarcastic || c.isIronic then
        ["Profanity score reduced due to sarcastic context"] else []) ++
      (if c.isPlayful || c.isFriendly then
        ["Profanity score reduced due to playful context"] else []) ++
      (if c.isEducational || c.isHistorical then
        ["Profanity score reduced due to educational context"] else []) }

/-! ## Sentiment analyzer (TextAnalysisService.ts, class
SentimentAnalyzer, lines 757-805) -/

def positiveWords : List String :=
  ["good", "great", "excellent", "wonderful", "amazing", "love", "like"]

def negativeWords : List String :=
  ["bad", "terrible", "awful", "horrible", "hate", "dislike", "angry"]

/-- SentimentAnalyzer.analyze: sums a fixed -10 per positive word and
+15 per negative word over the whitespace-split tokens, adds 5 per
exclamation mark when there are more than two, and applies
`Math.min(score, 100)` — an upper clamp only.  `detected` and `level`
use the value before that clamp. -/
def sentimentAnalyze (t : String) : CategoryResult :=
  let ws := splitWs t
  let nPos := ws.countP (fun w => positiveWords.contains w)
  let nNeg := ws.countP (fun w => negativeWords.contains w)
  let score0 : ℚ := 15 * nNeg - 10 * nPos
  let ex := charCount t '!'
  let score1 := if 2 < ex then score0 + 5 * ex else score0
  { score := min score1 100
    level := getRiskLevel score1
    detected := decide ((20 : ℚ) < score1)
    reasoning :=
      ws.foldr (fun w acc =>
        (if positiveWords.contains w then ["Positive sentiment detected"] else []) ++
        (if negativeWords.contains w then ["Negative sentiment detected"] else []) ++
        acc) [] ++
      (if 2 < ex then ["High emotional intensity detected"] else []) }

/-! ## Risk aggregation and confidence
(TextAnalysisService.calculateOverallRisk, lines 418-470, and
calculateConfidence, lines 472-499) -/

inductive Risk where
  | safe | warning | danger | critical
deriving Repr, DecidableEq

def Risk.toNat : Risk → Nat
  | .safe => 0
  | .warning => 1
  | .danger => 2
  | .critical => 3

/-- TextAnalysisService.calculateOverallRisk: fixed category weights,
then the three sequential context multipliers, then fixed thresholds. -/
def calculateOverallRisk (hateSpeech toxicity harassment profanity sentiment : ℚ)
    (c : ContextSignals) (i : IntentSignals) : Risk :=
  let weightedScore :=
    hateSpeech * 0.35 + harassment * 0.25 + toxicity * 0.20 +
    profanity * 0.15 + sentiment * 0.05
  let a1 := if c.isSarcastic || c.isIronic then weightedScore * 0.4
            else weightedScore
  let a2 := if c.isEducational || c.isHistorical then a1 * 0.3 else a1
  let a3 := if i.isThreatening || i.isAggressive then a2 * 1.3 else a2
  if 70 ≤ a3 then .critical
  else if 50 ≤ a3 then .danger
  else if 30 ≤ a3 then .warning
  else .safe

/-- TextAnalysisService.calculateConfidence; `Math.sqrt` is supplied as
the oracle `sqrtFn` (see the file header). -/
def calculateConfidence (sqrtFn : ℚ → ℚ) (scores : List ℚ)
    (c : ContextSignals) (i : IntentSignals) : ℚ :=
  let avg := scores.sum / (scores.length : ℚ)
  let variance := (scores.map (fun b => (b - avg) ^ 2)).sum / (scores.length : ℚ)
  let stdDev := sqrtFn variance
  let conf0 := max 0 (100 - stdDev * 2)
  let conf1 := if c.isSarcastic || c.isIronic then conf0 * 0.7 else conf0
  let conf2 := if c.isEducational || c.isHistorical then conf1 * 0.8 else conf1
  let conf3 := if i.isClear then conf2 * 1.1 else conf2
  (jsRound (min conf3 100) : ℚ)

/-! ## Orchestrator (TextAnalysisService.analyzeText, lines 36-112) -/

def allFlagKeywords : List String :=
  ["hate", "kill", "destroy", "racist", "sexist", "harass", "bully", "threaten"]

/-- TextAnalysisService.extractFlaggedWords: whitespace-split tokens that
contain one of the fixed keywords, deduplicated via a Set. -/
def extractFlaggedWords (t : String) : List String :=
  jsDedup ((splitWs t).filter
    (fun w => allFlagKeywords.any (fun k => includesStr w k)))

/-- TextAnalysisService.generateSuggestions: a fixed message bank keyed
by the risk verdict, with context-specific additions. -/
def generateSuggestions (risk : Risk) (c : ContextSignals) : List String :=
  (match risk with
   | .safe => ["Content appears safe for publication"]
   | .warning => ["Consider reviewing content before publication",
                  "Content may need minor adjustments"]
   | .danger => ["Content should be reviewed by moderators",
                 "Consider editing or removing problematic sections"]
   | .critical => ["Content should not be published",
                   "Immediate moderation required",
                   "Consider user warning or suspension"]) ++
  (if c.isSarcastic || c.isIronic then
    ["Consider adding context indicators for sarcastic content"] else []) ++
  (if c.isEducational then
    ["Educational content may need additional context or warnings"] else [])

/-- TextAnalysisService.generateReasoning: the concatenation of the hate
speech, toxicity, harassment and profanity reasoning lists (the sentiment
argument of the source function is never read), deduplicated. -/
def generateReasoning (hs tox ha pf : CategoryResult) : List String :=
  jsDedup (hs.reasoning ++ tox.reasoning ++ ha.reasoning ++ pf.reasoning)

/-- The collaborators of one analyzeText call that are external to the
repository: the bad-words list, the two optional classifier responses
(`none` = the call failed or timed out) and the square-root oracle. -/
structure AnalysisEnv where
  filter : BadWordsFilter
  mlHate : Option ℚ
  mlTox : Option ℚ
  sqrtFn : ℚ → ℚ

/-- The analysis part of a ContentAnalysisResult (metadata omitted). -/
structure Report where
  hateSpeech : CategoryResult
  toxicity : CategoryResult
  harassment : CategoryResult
  profanity : CategoryResult
  sentiment : CategoryResult
  context : ContextSignals
  intent : IntentSignals
  overallRisk : Risk
  confidence : ℚ
  flaggedWords : List String
  suggestions : List String
  reasoning : List String

/-- TextAnalysisService.analyzeText: preprocess once, classify context
and intent, run the five detectors on the same triple, aggregate.  The
toxicityPatterns cursor state is threaded in and out. -/
def analyzeText (text : String) (env : AnalysisEnv) (st : List Nat) :
    Report × List Nat :=
  let pre := preprocessText text
  let c := contextAnalyze pre
  let i := intentAnalyze pre
  let hs := analyzeHateSpeech pre c i env.mlHate
  let toxp := analyzeToxicity pre c i env.mlTox st
  let ha := analyzeHarassment pre c i
  let pf := analyzeProfanity env.filter pre c
  let se := sentimentAnalyze pre
  let risk := calculateOverallRisk hs.score toxp.1.score ha.score pf.score se.score c i
  let conf := calculateConfidence env.sqrtFn
    [hs.score, toxp.1.score, ha.score, pf.score, se.score] c i
  ({ hateSpeech := hs
     toxicity := toxp.1
     harassment := ha
     profanity := pf
     sentiment := se
     context := c
     intent := i
     overallRisk := risk
     confidence := conf
     flaggedWords := extractFlaggedWords pre
     suggestions := generateSuggestions risk c
     reasoning := generateReasoning hs toxp.1 ha pf }, toxp.2)

/-! ## Image/text merge (ImageAnalysisService.ts) -/

/-- The per-category fields read by combineImageAndTextAnalysis. -/
structure ImgCategory where
  score : ℚ
  level : RiskLevel
  detected : Bool
deriving Repr, DecidableEq

/-- The fields of an image or text sub-result that
combineImageAndTextAnalysis reads and produces. -/
structure ImgAnalysis where
  hateSpeech : ImgCategory
  toxicity : ImgCategory
  harassment : ImgCategory
  profanity : ImgCategory
  overallRisk : Risk
  confidence : ℚ
  flaggedWords : List String
  suggestions : List String
deriving Repr, DecidableEq

/-- ImageAnalysisService.getRiskLevel (lines 299-304), textually identical
to TextAnalysisService.getRiskLevel. -/
def imageGetRiskLevel (score : ℚ) : RiskLevel :=
  if 80 ≤ score then .critical
  else if 60 ≤ score then .high
  else if 40 ≤ score then .medium
  else .low

/-- ImageAnalysisService.calculateOverallRisk (lines 306-319): max/avg
thresholds over the four category scores. -/
def imageCalculateOverallRisk (hateSpeech toxicity harassment profanity : ℚ) :
    Risk :=
  let maxScore := max (max (max hateSpeech toxicity) harassment) profanity
  let avgScore := (hateSpeech + toxicity + harassment + profanity) / 4
  if 80 ≤ maxScore ∨ 70 ≤ avgScore then .critical
  else if 60 ≤ maxScore ∨ 50 ≤ avgScore then .danger
  else if 40 ≤ maxScore ∨ 30 ≤ avgScore then .warning
  else .safe

/-- ImageAnalysisService.combineImageAndTextAnalysis (lines 223-275) in
the case where both sub-results are present (a null text sub-result makes
the source return the image analysis unchanged). -/
def combineImageAndTextAnalysis (img txt : ImgAnalysis) : ImgAnalysis where
  hateSpeech :=
    { score := max img.hateSpeech.score txt.hateSpeech.score
      level := imageGetRiskLevel (max img.hateSpeech.score txt.hateSpeech.score)
      detected := img.hateSpeech.detected || txt.hateSpeech.detected }
  toxicity :=
    { score := max img.toxicity.score txt.toxicity.score
      level := imageGetRiskLevel (max img.toxicity.score txt.toxicity.score)
      detected := img.toxicity.detected || txt.toxicity.detected }
  harassment :=
    { score := max img.harassment.score txt.harassment.score
      level := imageGetRiskLevel (max img.harassment.score txt.harassment.score)
      detected := img.harassment.detected || txt.harassment.detected }
  profanity :=
    { score := max img.profanity.score txt.profanity.score
      level := imageGetRiskLevel (max img.profanity.score txt.profanity.score)
      detected := img.profanity.detected || txt.profanity.detected }
  overallRisk :=
    imageCalculateOverallRisk
      (max img.hateSpeech.score txt.hateSpeech.score)
      (max img.toxicity.score txt.toxicity.score)
      (max img.harassment.score txt.harassment.score)
      (max img.profanity.score txt.profanity.score)
  confidence := (jsRound ((img.confidence + txt.confidence) / 2) : ℚ)
  flaggedWords := img.flaggedWords ++ txt.flaggedWords
  suggestions := img.suggestions ++ txt.suggestions

/-! ## Auxiliary definitions used by the claim statements -/

/-- An analysis environment where both external classifier calls fail
(the sources then fall back to rule-based scores), the bad-words base
list is empty (only the five custom words remain) and the square-root
oracle is trivial; used for concrete evaluations whose claims do not
depend on these collaborators. -/
def noMLEnv : AnalysisEnv :=
  { filter := ⟨[]⟩, mlHate := none, mlTox := none, sqrtFn := fun _ => 0 }

/-- Modelled from the claim of C2 (not from the source): the hate speech
score computed in the order that the claim states — tier accumulation,
then the external merge (adopt the classifier score when strictly
greater), then contextual dampening, then intent amplification, then the
clamp. -/
def claimOrderHateSpeechScore (t : String) (c : ContextSignals)
    (i : IntentSignals) (ml : Option ℚ) : ℚ :=
  let tier := hateTierScore t
  let merged := if tier < ml.getD 0 then ml.getD 0 else tier
  let d1 := if c.isSarcastic || c.isIronic then merged * 0.3 else merged
  let d2 := if c.isEducational || c.isHistorical then d1 * 0.2 else d1
  let a1 := if i.isThreatening then d2 * 1.5 else d2
  min a1 100

/-- Modelled from the claim of C5 (not from the source): the weighted sum
with the stated weights, multiplied by 0.4 when sarcastic or ironic, by
0.3 when educational or historical, and by 1.3 when the intent is
threatening or aggressive, then mapped through the fixed thresholds. -/
def claimOverallRisk (hateSpeech toxicity harassment profanity sentiment : ℚ)
    (c : ContextSignals) (i : IntentSignals) : Risk :=
  let weighted :=
    hateSpeech * 0.35 + harassment * 0.25 + toxicity * 0.20 +
    profanity * 0.15 + sentiment * 0.05
  let adjusted := weighted *
    (if c.isSarcastic || c.isIronic then 0.4 else 1) *
    (if c.isEducational || c.isHistorical then 0.3 else 1) *
    (if i.isThreatening || i.isAggressive then 1.3 else 1)
  if 70 ≤ adjusted then .critical
  else if 50 ≤ adjusted then .danger
  else if 30 ≤ adjusted then .warning
  else .safe

/-- The three sequential context/intent multipliers the analyzeToxicity
wrapper applies to the already merged and clamped ToxicityAnalyzer
score, in factored form. -/
def toxWrapAdjusted (base : ℚ) (c : ContextSignals) (i : IntentSignals) : ℚ :=
  base * (if c.isSarcastic || c.isIronic then 0.4 else 1) *
    (if c.isPlayful || c.isFriendly then 0.3 else 1) *
    (if i.isAggressive || i.isHostile then 1.3 else 1)

/-- A concrete image sub-result (confidence 50). -/
def imgSampleA : ImgAnalysis :=
  { hateSpeech := ⟨0, .low, false⟩, toxicity := ⟨0, .low, false⟩
    harassment := ⟨0, .low, false⟩, profanity := ⟨0, .low, false⟩
    overallRisk := .safe, confidence := 50
    flaggedWords := [], suggestions := [] }

/-- A concrete text sub-result (confidence 51). -/
def imgSampleB : ImgAnalysis :=
  { hateSpeech := ⟨0, .low, false⟩, toxicity := ⟨0, .low, false⟩
    harassment := ⟨0, .low, false⟩, profanity := ⟨0, .low, false⟩
    overallRisk := .safe, confidence := 51
    flaggedWords := [], suggestions := [] }

/-! ## Helper lemmas -/

lemma factor_nonneg {p : Prop} [Decidable p] {f : ℚ} (hf : 0 ≤ f) :
    0 ≤ if p then f else 1 := by
  split_ifs
  · exact hf
  · norm_num

lemma ite_mul_nonneg {p : Prop} [Decidable p] {x f : ℚ} (hx : 0 ≤ x)
    (hf : 0 ≤ f) : 0 ≤ if p then x * f else x := by
  split_ifs
  · exact mul_nonneg hx hf
  · exact hx

/-- A two-step sequential conditional dampening equals multiplication by
the two conditional factors. -/
lemma seqDamp2 {p q : Prop} [Decidable p] [Decidable q] (s f1 f2 : ℚ) :
    (if q then (if p then s * f1 else s) * f2 else (if p then s * f1 else s)) =
      s * (if p then f1 else 1) * (if q then f2 else 1) := by
  split_ifs <;> ring

/-- A three-step sequential conditional dampening equals multiplication by
the three conditional factors. -/
lemma seqDamp3 {p q r : Prop} [Decidable p] [Decidable q] [Decidable r]
    (s f1 f2 f3 : ℚ) :
    (if r then
       (if q then (if p then s * f1 else s) * f2 else (if p then s * f1 else s)) * f3
     else
       (if q then (if p then s * f1 else s) * f2 else (if p then s * f1 else s))) =
      s * (if p then f1 else 1) * (if q then f2 else 1) * (if r then f3 else 1) := by
  split_ifs <;> ring

/-- The score-adoption conditional of the external merge is a maximum. -/
lemma ifLt_eq_max (a b : ℚ) : (if a < b then b else a) = max a b := by
  rcases le_or_lt b a with h | h
  · rw [if_neg (not_lt.mpr h), max_eq_left h]
  · rw [if_pos h, max_eq_right h.le]

lemma hateTierScore_nonneg (t : String) : 0 ≤ hateTierScore t := by
  unfold hateTierScore
  positivity

lemma hateDamped_eq (t : String) (c : ContextSignals) (i : IntentSignals) :
    hateDamped t c i =
      hateTierScore t * (if c.isSarcastic || c.isIronic then 0.3 else 1) *
        (if c.isEducational || c.isHistorical then 0.2 else 1) *
        (if i.isThreatening then 1.5 else 1) := by
  unfold hateDamped
  exact seqDamp3 _ _ _ _

lemma hateDamped_nonneg (t : String) (c : ContextSignals) (i : IntentSignals) :
    0 ≤ hateDamped t c i := by
  rw [hateDamped_eq]
  have h1 := hateTierScore_nonneg t
  refine mul_nonneg (mul_nonneg (mul_nonneg h1 ?_) ?_) ?_ <;>
    exact factor_nonneg (by norm_num)

/-- The final hate speech score in closed form: the dampened and
amplified rule score, max-merged with the external score, clamped. -/
lemma analyzeHateSpeech_score (t : String) (c : ContextSignals)
    (i : IntentSignals) (ml : Option ℚ) :
    (analyzeHateSpeech t c i ml).score =
      min (max (hateDamped t c i) (ml.getD 0)) 100 := by
  unfold analyzeHateSpeech
  dsimp only
  rw [ifLt_eq_max]

lemma analyzeHateSpeech_score_mem (t : String) (c : ContextSignals)
    (i : IntentSignals) (ml : Option ℚ) :
    0 ≤ (analyzeHateSpeech t c i ml).score ∧
      (analyzeHateSpeech t c i ml).score ≤ 100 := by
  rw [analyzeHateSpeech_score]
  exact ⟨le_min (le_max_of_le_left (hateDamped_nonneg t c i)) (by norm_num),
    min_le_right _ _⟩

/-! ## Matcher and preprocessing sanity checks -/

example : preprocessText "  Hello, World!  " = "hello  world" := by decide
example : reTest (rx ["you", "suck"]) "well you   suck a lot" = true := by decide
example : reTest (rx ["you", "suck"]) "you sucked" = true := by decide
example : reTest (rx ["you", "suck"]) "yousuck" = false := by decide
example : gTest (rx ["you", "suck"]) "you suck" 0 = (true, 8) := by decide
example : gTest (rx ["you", "suck"]) "you suck" 8 = (false, 0) := by decide
example : splitWs "a  b c" = ["a", "b", "c"] := by decide
example : splitWs "" = [""] := by decide
example : bTest "dumb" "you are dumb" = true := by decide
example : bTest "dumb" "dumbest" = false := by decide
example : reTest (directHatePatterns.getD 0 []) "i hate all women" = true := by
  decide
example : reTest (directHatePatterns.getD 0 []) "i hate all people of this race" = false := by
  decide

/-! ## Toxicity score accumulation lemmas -/

lemma toxAnalyzeKeywords_nonneg (t : String) : 0 ≤ toxAnalyzeKeywords t := by
  unfold toxAnalyzeKeywords
  exact le_min (by positivity) (by norm_num)

lemma toxPatternsStep_fst_le (t : String) (acc : ℚ × List Nat)
    (pli : Regex × Nat) : acc.1 ≤ (toxPatternsStep t acc pli).1 := by
  unfold toxPatternsStep
  dsimp only
  split_ifs
  · linarith
  · exact le_refl _

lemma foldl_toxPatternsStep_fst (t : String) (l : List (Regex × Nat)) :
    ∀ acc : ℚ × List Nat, acc.1 ≤ (l.foldl (toxPatternsStep t) acc).1 := by
  induction l with
  | nil => intro acc; exact le_refl _
  | cons p l ih =>
      intro acc
      exact le_trans (toxPatternsStep_fst_le t acc p) (ih _)

lemma toxAnalyzePatterns_fst_nonneg (t : String) (st : List Nat) :
    0 ≤ (toxAnalyzePatterns t st).1 := by
  unfold toxAnalyzePatterns
  dsimp only
  exact le_min (foldl_toxPatternsStep_fst t _ ((0 : ℚ), [])) (by norm_num)

/-- The analyzeToxicity wrapper score in closed form: the merged and
clamped ToxicityAnalyzer score, multiplied by the conditional context and
intent factors, clamped again. -/
lemma analyzeToxicity_score (t : String) (c : ContextSignals)
    (i : IntentSignals) (ml : Option ℚ) (st : List Nat) :
    ((analyzeToxicity t c i ml st).1).score =
      min (toxWrapAdjusted (toxicityAnalyzerAnalyze t ml st).1 c i) 100 := by
  unfold analyzeToxicity toxWrapAdjusted
  dsimp only
  rw [seqDamp3]

/-! ## Preprocessing erases terminal punctuation -/

lemma collapseWs_space (l : List Char) : ∀ (b : Bool),
    ∀ c ∈ collapseWsAux b l, isSpaceChar c = true → c = ' ' := by
  induction l with
  | nil => intro b c hc; simp [collapseWsAux] at hc
  | cons x xs ih =>
      intro b c hc hsp
      unfold collapseWsAux at hc
      by_cases hx : isSpaceChar x = true
      · rw [if_pos hx] at hc
        cases b with
        | true => exact ih true c hc hsp
        | false =>
            rcases List.mem_cons.mp hc with h | h
            · exact h
            · exact ih true c h hsp
      · rw [if_neg hx] at hc
        rcases List.mem_cons.mp hc with h | h
        · subst h; exact absurd hsp hx
        · exact ih false c h hsp

lemma trimChars_subset (l : List Char) : ∀ c ∈ trimChars l, c ∈ l := by
  intro c hc
  unfold trimChars at hc
  have h1 := List.mem_reverse.mp hc
  have h2 := (List.dropWhile_sublist _).subset h1
  have h3 := List.mem_reverse.mp h2
  exact (List.dropWhile_sublist _).subset h3

lemma stripSpecial_mem (l : List Char)
    (hl : ∀ c ∈ l, isSpaceChar c = true → c = ' ') :
    ∀ c ∈ stripSpecial l, isWordChar c = true ∨ c = ' ' := by
  intro c hc
  unfold stripSpecial at hc
  rcases List.mem_map.mp hc with ⟨a, ha, hEq⟩
  by_cases h1 : (isWordChar a || isSpaceChar a) = true
  · rw [if_pos h1] at hEq
    subst hEq
    rcases (by simpa using h1 : isWordChar a = true ∨ isSpaceChar a = true)
      with h | h
    · exact Or.inl h
    · exact Or.inr (hl a ha h)
  · rw [if_neg h1] at hEq
    exact Or.inr hEq.symm

lemma preprocess_chars (raw : String) :
    ∀ c ∈ (preprocessText raw).data, isWordChar c = true ∨ c = ' ' := by
  intro c hc
  have hc' : c ∈ trimChars (stripSpecial (collapseWsAux false
      (trimChars (toLowerStr raw).data))) := hc
  have h2 := trimChars_subset _ c hc'
  exact stripSpecial_mem _ (fun d hd => collapseWs_space _ false d hd) c h2

lemma preprocess_no_punct (raw : String) :
    hasTerminalPunct (preprocessText raw) = false := by
  unfold hasTerminalPunct
  rw [List.any_eq_false]
  intro c hc hpunct
  simp only [Bool.or_eq_true, decide_eq_true_eq] at hpunct
  rcases preprocess_chars raw c hc with hw | hw
  · rcases hpunct with (h | h) | h <;> subst h <;> exact absurd hw (by decide)
  · subst hw
    rcases hpunct with (h | h) | h <;> exact absurd h (by decide)

lemma isClear_preprocess_false (raw : String) :
    detectClarity (preprocessText raw) = false := by
  unfold detectClarity
  rw [preprocess_no_punct, Bool.and_false]

/-! ## Claim theorems -/

/-- C1 (code bug): every category score is claimed to lie in [0,100], with
the sentiment detector clamping its summed score into that interval; but
SentimentAnalyzer.analyze applies only `Math.min(score, 100)` — there is
no lower clamp — so the report produced for the input "good" carries the
sentiment score -10, outside [0,100], contradicting the claim and the
type annotations the repository itself declares for the score fields. -/
theorem C1_sentiment_score_negative :
    (analyzeText "good" noMLEnv initToxState).1.sentiment.score = -10 ∧
      ¬(0 ≤ (analyzeText "good" noMLEnv initToxState).1.sentiment.score) := by
  constructor <;> decide

/-- C2 (counterexample): the claimed order of operations — tier
accumulation, then external merge, then dampening, then amplification,
then clamp — disagrees with the source on the preprocessed input
"whatever i hate all women" with an external hate score of 35: the claimed
order dampens the adopted value (giving 12), while analyzeHateSpeech
dampens only the rule score and then adopts the undampened 35. -/
theorem C2_counterexample :
    claimOrderHateSpeechScore (preprocessText "whatever, I hate all women")
        (contextAnalyze (preprocessText "whatever, I hate all women"))
        (intentAnalyze (preprocessText "whatever, I hate all women"))
        (some 35) ≠
      (analyzeHateSpeech (preprocessText "whatever, I hate all women")
        (contextAnalyze (preprocessText "whatever, I hate all women"))
        (intentAnalyze (preprocessText "whatever, I hate all women"))
        (some 35)).score := by
  decide

/-- C2 (amended): the hate speech detector applies tier accumulation,
then contextual dampening, then intent amplification, and only then the
external merge (adopting the classifier score, undampened, when strictly
greater) followed by the clamp; the dampening/amplification factors
compound multiplicatively on the rule score. The toxicity detector
max-merges the external score inside ToxicityAnalyzer.analyze (before the
sentiment/aggression accumulation and an inner clamp) and the wrapper
then applies its dampening and amplification factors multiplicatively to
that merged, clamped score, with a second clamp. -/
theorem C2_amended_order :
    (∀ (t : String) (c : ContextSignals) (i : IntentSignals) (ml : Option ℚ),
       (analyzeHateSpeech t c i ml).score =
         min (max (hateDamped t c i) (ml.getD 0)) 100) ∧
    (∀ (t : String) (c : ContextSignals) (i : IntentSignals),
       hateDamped t c i = hateTierScore t *
         (if c.isSarcastic || c.isIronic then 0.3 else 1) *
         (if c.isEducational || c.isHistorical then 0.2 else 1) *
         (if i.isThreatening then 1.5 else 1)) ∧
    (∀ (t : String) (c : ContextSignals) (i : IntentSignals) (ml : Option ℚ)
       (st : List Nat),
       ((analyzeToxicity t c i ml st).1).score =
         min (toxWrapAdjusted (toxicityAnalyzerAnalyze t ml st).1 c i) 100) :=
  ⟨analyzeHateSpeech_score, hateDamped_eq, analyzeToxicity_score⟩

/-- C3 (code bug): analyzing the identical text "you suck" twice on the
same service instance does not give identical category results: the
`g`-flagged class-field toxicityPatterns keep their `lastIndex` cursors
between calls, so the first call scores the toxicity pattern match (15)
and the second call misses it (0). -/
theorem C3_second_run_differs :
    (analyzeText "you suck" noMLEnv initToxState).1.toxicity.score = 15 ∧
      (analyzeText "you suck" noMLEnv
        ((analyzeText "you suck" noMLEnv initToxState).2)).1.toxicity.score
        = 0 := by
  constructor <;> decide

/-- C4 (counterexample): on the input "I hate all people of this race"
the report has hateSpeech.detected = false and hateSpeech.score = 0 — not
detected = true with score at least 70 as claimed — because every
direct-hate tier pattern requires one of the specific group words
(blacks/whites/jews/muslims/gays/women/men) and none matches
"people of this race". -/
theorem C4_counterexample :
    ¬((analyzeText "I hate all people of this race" noMLEnv
        initToxState).1.hateSpeech.detected = true ∧
      70 ≤ (analyzeText "I hate all people of this race" noMLEnv
        initToxState).1.hateSpeech.score) := by
  intro h
  exact absurd h.1 (by decide)

/-- C4 (amended): for the input "I hate all people of this race", with no
external-classifier response, the analysis reports hateSpeech.detected =
false and hateSpeech.score = 0, whatever the bad-words list, the toxicity
oracle, the square-root oracle and the toxicity pattern cursors are. -/
theorem C4_amended (f : BadWordsFilter) (mlT : Option ℚ) (sq : ℚ → ℚ)
    (st : List Nat) :
    (analyzeText "I hate all people of this race" ⟨f, none, mlT, sq⟩
        st).1.hateSpeech.detected = false ∧
      (analyzeText "I hate all people of this race" ⟨f, none, mlT, sq⟩
        st).1.hateSpeech.score = 0 := by
  constructor
  · show (analyzeHateSpeech (preprocessText "I hate all people of this race")
      (contextAnalyze (preprocessText "I hate all people of this race"))
      (intentAnalyze (preprocessText "I hate all people of this race"))
      none).detected = false
    decide
  · show (analyzeHateSpeech (preprocessText "I hate all people of this race")
      (contextAnalyze (preprocessText "I hate all people of this race"))
      (intentAnalyze (preprocessText "I hate all people of this race"))
      none).score = 0
    decide

/-- C5: calculateOverallRisk is exactly the claimed formula: the weighted
sum hateSpeech*0.35 + harassment*0.25 + toxicity*0.20 + profanity*0.15 +
sentiment*0.05, multiplied sequentially by 0.4 when sarcastic or ironic,
by 0.3 when educational or historical, and by 1.3 when the intent is
threatening or aggressive, then mapped to critical at 70, danger at 50,
warning at 30, else safe. -/
theorem C5_overall_risk_formula (h t ha p s : ℚ) (c : ContextSignals)
    (i : IntentSignals) :
    calculateOverallRisk h t ha p s c i = claimOverallRisk h t ha p s c i := by
  unfold calculateOverallRisk claimOverallRisk
  dsimp only
  rw [seqDamp3]

set_option maxHeartbeats 1000000 in
/-- C6: preprocessing replaces every character that is neither a word
character nor whitespace — in particular the terminal punctuation
characters — with a space, while IntentAnalyzer.detectClarity requires a
character of the class [.!?]; hence the intent signal isClear of every
report is false, and the clarity multiplier inside calculateConfidence is
never applied within analyzeText. -/
theorem C6_isClear_always_false (text : String) (env : AnalysisEnv)
    (st : List Nat) :
    ((analyzeText text env st).1).intent.isClear = false := by
  show detectClarity (preprocessText text) = false
  exact isClear_preprocess_false text

/-- Monotonicity of the fixed risk-threshold mapping. -/
lemma riskThreshold_mono {a b : ℚ} (hab : a ≤ b) :
    (if 70 ≤ a then Risk.critical else if 50 ≤ a then Risk.danger
     else if 30 ≤ a then Risk.warning else Risk.safe).toNat ≤
      (if 70 ≤ b then Risk.critical else if 50 ≤ b then Risk.danger
       else if 30 ≤ b then Risk.warning else Risk.safe).toNat := by
  split_ifs <;> simp [Risk.toNat] <;> linarith

/-- C7: holding the context and intent signals fixed, the overall risk
(ordered safe < warning < danger < critical via toNat) never decreases
when any of the five category scores increases. -/
theorem C7_overall_risk_monotone (h h' t t' ha ha' p p' s s' : ℚ)
    (c : ContextSignals) (i : IntentSignals)
    (hh : h ≤ h') (ht : t ≤ t') (hha : ha ≤ ha') (hp : p ≤ p')
    (hs : s ≤ s') :
    (calculateOverallRisk h t ha p s c i).toNat ≤
      (calculateOverallRisk h' t' ha' p' s' c i).toNat := by
  unfold calculateOverallRisk
  dsimp only
  rw [seqDamp3, seqDamp3]
  apply riskThreshold_mono
  refine mul_le_mul_of_nonneg_right (mul_le_mul_of_nonneg_right
    (mul_le_mul_of_nonneg_right ?_ ?_) ?_) ?_
  · have m1 := mul_le_mul_of_nonneg_right hh (by norm_num : (0:ℚ) ≤ 0.35)
    have m2 := mul_le_mul_of_nonneg_right hha (by norm_num : (0:ℚ) ≤ 0.25)
    have m3 := mul_le_mul_of_nonneg_right ht (by norm_num : (0:ℚ) ≤ 0.20)
    have m4 := mul_le_mul_of_nonneg_right hp (by norm_num : (0:ℚ) ≤ 0.15)
    have m5 := mul_le_mul_of_nonneg_right hs (by norm_num : (0:ℚ) ≤ 0.05)
    linarith
  · exact factor_nonneg (by norm_num)
  · exact factor_nonneg (by norm_num)
  · exact factor_nonneg (by norm_num)

/-- Witness for C7 at a concrete input. -/
theorem C7_witness :
    (calculateOverallRisk 0 0 0 0 0
        ⟨false, false, false, false, false, false, false⟩
        ⟨false, false, false, false, false⟩).toNat ≤
      (calculateOverallRisk 100 100 100 100 100
        ⟨false, false, false, false, false, false, false⟩
        ⟨false, false, false, false, false⟩).toNat :=
  C7_overall_risk_monotone 0 100 0 100 0 100 0 100 0 100
    ⟨false, false, false, false, false, false, false⟩
    ⟨false, false, false, false, false⟩
    (by norm_num) (by norm_num) (by norm_num) (by norm_num) (by norm_num)

/-- C8: the level mapping is monotone and satisfies the eight fixed
breakpoints; ToxicityAnalyzer.getToxicityLevel is the same function. -/
theorem C8_level_breakpoints :
    (∀ s t : ℚ, s ≤ t → (getRiskLevel s).toNat ≤ (getRiskLevel t).toNat) ∧
    getRiskLevel 0 = RiskLevel.low ∧ getRiskLevel 39 = RiskLevel.low ∧
    getRiskLevel 40 = RiskLevel.medium ∧ getRiskLevel 59 = RiskLevel.medium ∧
    getRiskLevel 60 = RiskLevel.high ∧ getRiskLevel 79 = RiskLevel.high ∧
    getRiskLevel 80 = RiskLevel.critical ∧
    getRiskLevel 100 = RiskLevel.critical ∧
    ∀ s : ℚ, getToxicityLevel s = getRiskLevel s := by
  refine ⟨?_, by decide, by decide, by decide, by decide, by decide,
    by decide, by decide, by decide, fun s => rfl⟩
  intro s t hst
  unfold getRiskLevel
  split_ifs <;> simp [RiskLevel.toNat] <;> linarith

/-- Witness for C8 at a concrete input. -/
theorem C8_witness : (getRiskLevel 39).toNat ≤ (getRiskLevel 79).toNat :=
  C8_level_breakpoints.1 39 79 (by norm_num)

set_option maxHeartbeats 1000000 in
/-- C9: a failed or timed-out external classifier call (modelled as the
oracle `none`) degrades only the affected detector to its purely
rule-based result — analyzeHateSpeech equals the rule-based-only path and
ToxicityAnalyzer.analyze equals its rule-based-only path — while every
sibling category result, and the pattern cursor state, is unaffected by
that oracle, and no error value reaches the caller (the result type
carries no error case). -/
theorem C9_classifier_failure_fallback :
    (∀ (t : String) (c : ContextSignals) (i : IntentSignals),
        analyzeHateSpeech t c i none = hateSpeechRuleBased t c i) ∧
    (∀ (t : String) (st : List Nat),
        toxicityAnalyzerAnalyze t none st = toxicityRuleBased t st) ∧
    (∀ (text : String) (f : BadWordsFilter) (mlH mlH' mlT : Option ℚ)
        (sq : ℚ → ℚ) (st : List Nat),
        ((analyzeText text ⟨f, mlH, mlT, sq⟩ st).1.toxicity =
          (analyzeText text ⟨f, mlH', mlT, sq⟩ st).1.toxicity) ∧
        ((analyzeText text ⟨f, mlH, mlT, sq⟩ st).1.harassment =
          (analyzeText text ⟨f, mlH', mlT, sq⟩ st).1.harassment) ∧
        ((analyzeText text ⟨f, mlH, mlT, sq⟩ st).1.profanity =
          (analyzeText text ⟨f, mlH', mlT, sq⟩ st).1.profanity) ∧
        ((analyzeText text ⟨f, mlH, mlT, sq⟩ st).1.sentiment =
          (analyzeText text ⟨f, mlH', mlT, sq⟩ st).1.sentiment) ∧
        ((analyzeText text ⟨f, mlH, mlT, sq⟩ st).2 =
          (analyzeText text ⟨f, mlH', mlT, sq⟩ st).2)) ∧
    (∀ (text : String) (f : BadWordsFilter) (mlH mlT mlT' : Option ℚ)
        (sq : ℚ → ℚ) (st : List Nat),
        (analyzeText text ⟨f, mlH, mlT, sq⟩ st).1.hateSpeech =
          (analyzeText text ⟨f, mlH, mlT', sq⟩ st).1.hateSpeech) := by
  refine ⟨?_, ?_, ?_, ?_⟩
  · intro t c i
    unfold analyzeHateSpeech hateSpeechRuleBased
    simp only [Option.getD, if_neg (not_lt.mpr (hateDamped_nonneg t c i)),
      decide_eq_false (by norm_num : ¬((30 : ℚ) < 0)), Bool.or_false,
      List.append_nil]
  · intro t st
    unfold toxicityAnalyzerAnalyze toxicityRuleBased
    simp only [Option.getD]
    rw [max_eq_left (add_nonneg (toxAnalyzeKeywords_nonneg _)
      (toxAnalyzePatterns_fst_nonneg _ _))]
  · intro text f mlH mlH' mlT sq st
    exact ⟨rfl, rfl, rfl, rfl, rfl⟩
  · intro text f mlH mlT mlT' sq st
    rfl

/-- C10 (counterexample): with sub-result confidences 50 and 51 the
combined confidence is Math.round(50.5) = 51, not the exact average
50.5 — the claim that the combined confidence equals the average of the
two confidences fails on any odd confidence sum. -/
theorem C10_counterexample :
    (combineImageAndTextAnalysis imgSampleA imgSampleB).confidence ≠
      (imgSampleA.confidence + imgSampleB.confidence) / 2 := by
  decide

/-- C10 (amended): each combined category score is the maximum of the two
sub-result scores, its level is re-derived from that maximum, detected is
the disjunction, and the combined confidence is the average of the two
confidences rounded to the nearest integer (Math.round, halves up). -/
theorem C10_amended_merge (img txt : ImgAnalysis) :
    (combineImageAndTextAnalysis img txt).hateSpeech.score =
        max img.hateSpeech.score txt.hateSpeech.score ∧
      (combineImageAndTextAnalysis img txt).hateSpeech.level =
        imageGetRiskLevel (max img.hateSpeech.score txt.hateSpeech.score) ∧
      (combineImageAndTextAnalysis img txt).hateSpeech.detected =
        (img.hateSpeech.detected || txt.hateSpeech.detected) ∧
      (combineImageAndTextAnalysis img txt).toxicity.score =
        max img.toxicity.score txt.toxicity.score ∧
      (combineImageAndTextAnalysis img txt).toxicity.level =
        imageGetRiskLevel (max img.toxicity.score txt.toxicity.score) ∧
      (combineImageAndTextAnalysis img txt).toxicity.detected =
        (img.toxicity.detected || txt.toxicity.detected) ∧
      (combineImageAndTextAnalysis img txt).harassment.score =
        max img.harassment.score txt.harassment.score ∧
      (combineImageAndTextAnalysis img txt).harassment.level =
        imageGetRiskLevel (max img.harassment.score txt.harassment.score) ∧
      (combineImageAndTextAnalysis img txt).harassment.detected =
        (img.harassment.detected || txt.harassment.detected) ∧
      (combineImageAndTextAnalysis img txt).profanity.score =
        max img.profanity.score txt.profanity.score ∧
      (combineImageAndTextAnalysis img txt).profanity.level =
        imageGetRiskLevel (max img.profanity.score txt.profanity.score) ∧
      (combineImageAndTextAnalysis img txt).profanity.detected =
        (img.profanity.detected || txt.profanity.detected) ∧
      (combineImageAndTextAnalysis img txt).confidence =
        (jsRound ((img.confidence + txt.confidence) / 2) : ℚ) :=
  ⟨rfl, rfl, rfl, rfl, rfl, rfl, rfl, rfl, rfl, rfl, rfl, rfl, rfl⟩
